import Mathlib

/-!
Flood-monitoring risk scorer: a shallow embedding.

This file embeds the flood-probability scoring logic of the repository in
Lean 4 and proves properties of it.

The embedded code:

* the heuristic additive point scorer, the severity mapping and the
  hours-to-flood estimate of the `except` branch of
  `flood_prediction` in `api/views.py`;
* the severity-threshold loop (`FLOOD_THRESHOLDS`), the missing-model
  statistical fallback and the regression-path hours-to-flood logic of
  `predict_flood_probability` in
  `flood_monitoring/ml/flood_prediction_model.py`.

Sensor aggregates coming from the database can be absent (`None` in
Python); they are modelled as `Option ℚ`, and Python truthiness
(`if x:`, falsy on both `None` and `0`) is modelled explicitly.
The Python `int()` truncation toward zero is `pyInt`.
-/

namespace Flood

/-- Python `int(q)`: truncation toward zero (floor for non-negative
values, ceiling for negative ones). -/
def pyInt (q : ℚ) : ℤ :=
  if 0 ≤ q then ⌊q⌋ else ⌈q⌉

/-- Python truthiness of an optional number: `None` and `0` are falsy,
every other number is truthy.  Models `if rainfall_24h['total']:` etc. -/
def truthy : Option ℚ → Bool
  | none => false
  | some v => v ≠ 0

/-- Factor 1 of the heuristic scorer in `api/views.py`
(`flood_prediction`, fallback branch): points from the 24-hour rainfall
total.  The whole block is guarded by truthiness of the aggregate. -/
def rainfall24Points (total : Option ℚ) : ℚ :=
  if truthy total then
    let r := total.getD 0
    if r > 50 then 30
    else if r > 25 then 20
    else if r > 10 then 10
    else 0
  else 0

/-- Factor 2: points from the 72-hour rainfall total. -/
def rainfall72Points (total : Option ℚ) : ℚ :=
  if truthy total then
    let r := total.getD 0
    if r > 100 then 25
    else if r > 50 then 15
    else if r > 25 then 5
    else 0
  else 0

/-- Factor 3: points from the current water level. -/
def waterLevelPoints (current : Option ℚ) : ℚ :=
  if truthy current then
    let w := current.getD 0
    if w > 3/2 then 30
    else if w > 1 then 20
    else if w > 1/2 then 10
    else 0
  else 0

/-- Factor 4: points from humidity (soil-saturation proxy). -/
def humidityPoints (current : Option ℚ) : ℚ :=
  if truthy current then
    let h := current.getD 0
    if h > 90 then 15
    else if h > 80 then 10
    else if h > 70 then 5
    else 0
  else 0

/-- The heuristic probability of the fallback branch of
`flood_prediction`: the four factors are summed and the sum is capped at
100
(`probability = min(probability, 100)`). -/
def heuristicProbability (r24 r72 wl hum : Option ℚ) : ℚ :=
  min (rainfall24Points r24 + rainfall72Points r72
        + waterLevelPoints wl + humidityPoints hum) 100

/-- The severity level assigned by the fallback branch of
`flood_prediction` in `api/views.py` (the `probability >= 75 / 60 / 50 /
30` chain). -/
def heuristicSeverity (p : ℚ) : ℕ :=
  if p ≥ 75 then 4
  else if p ≥ 60 then 3
  else if p ≥ 50 then 2
  else if p ≥ 30 then 1
  else 0

/-- The hours-to-flood estimate of the fallback branch: `None` below
probability 60, guarded by truthiness of the current water level and of
the 24-hour rainfall average, then
`max(1, min(48, level_difference / (rainfall_rate * 0.02)))`. -/
def heuristicHoursToFlood (p : ℚ) (wl avg24 : Option ℚ) : Option ℚ :=
  if p ≥ 60 then
    if truthy wl ∧ truthy avg24 then
      let currentLevel := wl.getD 0
      let targetLevel : ℚ := 9/5
      let levelDifference := max 0 (targetLevel - currentLevel)
      let rainfallRate := avg24.getD 0 / 24
      if rainfallRate > 0 then
        let estimatedRiseRate := rainfallRate * (1/50)
        if estimatedRiseRate > 0 then
          some (max 1 (min 48 (levelDifference / estimatedRiseRate)))
        else none
      else none
    else none
  else none

/-- `FLOOD_THRESHOLDS` of `flood_prediction_model.py`, already sorted by
threshold as the `sorted(..., key=lambda x: x[1])` loop sees them, with
each name replaced by the numeric level the loop assigns for it. -/
def floodThresholds : List (ℕ × ℚ) :=
  [(1, 30), (2, 50), (3, 70), (4, 85), (5, 95)]

/-- The severity loop of `predict_flood_probability`: iterate over the
thresholds in ascending order and keep the level of the last threshold
met, starting from the initialised value 0. -/
def mlSeverity (p : ℚ) : ℕ :=
  floodThresholds.foldl (fun acc lt => if p ≥ lt.2 then lt.1 else acc) 0

/-- The missing-model fallback of `predict_flood_probability`
(`classification_model is None`, dict input): factors
`min(100, value/threshold * 100)`, weighted 60 % rainfall / 40 % water
level, truncated with Python `int()`. -/
def statisticalFallbackProbability (rainfall24h waterLevel : ℚ) : ℤ :=
  let waterLevelThreshold : ℚ := 3/2
  let rainfallThreshold : ℚ := 50
  let rainfallFactor :=
    if rainfallThreshold > 0 then
      min 100 (rainfall24h / rainfallThreshold * 100) else 0
  let waterLevelFactor :=
    if waterLevelThreshold > 0 then
      min 100 (waterLevel / waterLevelThreshold * 100) else 0
  pyInt (rainfallFactor * (3/5) + waterLevelFactor * (2/5))

/-- The regression-path hours-to-flood of `predict_flood_probability`:
when the (pre-`int()`) probability exceeds 50 and a regression model is
present, the output of that model is kept, clamped below at 0; otherwise the
initialised `None` stands.  The opaque regression output is a
parameter. -/
def mlHoursToFlood (probability : ℚ) (regressionOutput : Option ℚ) :
    Option ℚ :=
  if probability > 50 then
    match regressionOutput with
    | some h => some (max 0 h)
    | none => none
  else none

/-- Bucket semantics used to state the tier rule: the best (maximum)
point value among the tiers whose strict lower bound is exceeded
(`t < x`), and 0 when no tier matches.  At most one tier can be the
maximum, so no double counting occurs. -/
def bestTier : List (ℚ × ℚ) → ℚ → ℚ
  | [], _ => 0
  | (t, p) :: rest, x => max (if t < x then p else 0) (bestTier rest x)

end Flood

namespace Flood

/-! Helper lemmas: closed forms, ranges and monotonicity of the four
point functions. -/

lemma rainfall24Points_some (x : ℚ) : rainfall24Points (some x) =
    (if x > 50 then 30 else if x > 25 then 20 else if x > 10 then 10 else 0) := by
  by_cases hx : x = 0
  · subst hx; norm_num [rainfall24Points, truthy]
  · simp [rainfall24Points, truthy, hx]

lemma rainfall72Points_some (x : ℚ) : rainfall72Points (some x) =
    (if x > 100 then 25 else if x > 50 then 15 else if x > 25 then 5 else 0) := by
  by_cases hx : x = 0
  · subst hx; norm_num [rainfall72Points, truthy]
  · simp [rainfall72Points, truthy, hx]

lemma waterLevelPoints_some (x : ℚ) : waterLevelPoints (some x) =
    (if x > 3/2 then 30 else if x > 1 then 20 else if x > 1/2 then 10 else 0) := by
  by_cases hx : x = 0
  · subst hx; norm_num [waterLevelPoints, truthy]
  · simp [waterLevelPoints, truthy, hx]

lemma humidityPoints_some (x : ℚ) : humidityPoints (some x) =
    (if x > 90 then 15 else if x > 80 then 10 else if x > 70 then 5 else 0) := by
  by_cases hx : x = 0
  · subst hx; norm_num [humidityPoints, truthy]
  · simp [humidityPoints, truthy, hx]

lemma rainfall24Points_range (o : Option ℚ) :
    0 ≤ rainfall24Points o ∧ rainfall24Points o ≤ 30 := by
  cases o with
  | none => simp [rainfall24Points, truthy]
  | some x => rw [rainfall24Points_some]; split_ifs <;> norm_num

lemma rainfall72Points_range (o : Option ℚ) :
    0 ≤ rainfall72Points o ∧ rainfall72Points o ≤ 25 := by
  cases o with
  | none => simp [rainfall72Points, truthy]
  | some x => rw [rainfall72Points_some]; split_ifs <;> norm_num

lemma waterLevelPoints_range (o : Option ℚ) :
    0 ≤ waterLevelPoints o ∧ waterLevelPoints o ≤ 30 := by
  cases o with
  | none => simp [waterLevelPoints, truthy]
  | some x => rw [waterLevelPoints_some]; split_ifs <;> norm_num

lemma humidityPoints_range (o : Option ℚ) :
    0 ≤ humidityPoints o ∧ humidityPoints o ≤ 15 := by
  cases o with
  | none => simp [humidityPoints, truthy]
  | some x => rw [humidityPoints_some]; split_ifs <;> norm_num

lemma rainfall24Points_mono {a b : ℚ} (hab : a ≤ b) :
    rainfall24Points (some a) ≤ rainfall24Points (some b) := by
  rw [rainfall24Points_some, rainfall24Points_some]
  split_ifs <;> linarith

lemma rainfall72Points_mono {a b : ℚ} (hab : a ≤ b) :
    rainfall72Points (some a) ≤ rainfall72Points (some b) := by
  rw [rainfall72Points_some, rainfall72Points_some]
  split_ifs <;> linarith

lemma waterLevelPoints_mono {a b : ℚ} (hab : a ≤ b) :
    waterLevelPoints (some a) ≤ waterLevelPoints (some b) := by
  rw [waterLevelPoints_some, waterLevelPoints_some]
  split_ifs <;> linarith

lemma humidityPoints_mono {a b : ℚ} (hab : a ≤ b) :
    humidityPoints (some a) ≤ humidityPoints (some b) := by
  rw [humidityPoints_some, humidityPoints_some]
  split_ifs <;> linarith

lemma heuristicProbability_nonneg (a b c d : Option ℚ) :
    0 ≤ heuristicProbability a b c d := by
  refine le_min ?_ (by norm_num)
  have h1 := (rainfall24Points_range a).1
  have h2 := (rainfall72Points_range b).1
  have h3 := (waterLevelPoints_range c).1
  have h4 := (humidityPoints_range d).1
  linarith

lemma heuristicProbability_le_100 (a b c d : Option ℚ) :
    heuristicProbability a b c d ≤ 100 :=
  min_le_right _ _

lemma heuristicProbability_mono_left {s s' : ℚ} (h : s ≤ s') :
    ∀ t : ℚ, min s t ≤ min s' t := fun _ =>
  min_le_min h le_rfl

/-- C1, counterexample.  The heuristic fallback path of
`flood_prediction` is a prediction result too, and its severity mapping
is not the claimed 30/50/70/85/95 step function: the concrete input
(rainfall 24h = 30 mm, rainfall 72h = 120 mm, water level = 0,
humidity = 95) yields probability 60, for which the fallback assigns
severity 3 while the claimed step function (as implemented by the
threshold loop of the ML module) assigns 2. -/
theorem C1_counterexample :
    heuristicProbability (some 30) (some 120) (some 0) (some 95) = 60 ∧
    heuristicSeverity 60 = 3 ∧ mlSeverity 60 = 2 := by
  refine ⟨?_, ?_, ?_⟩
  · norm_num [heuristicProbability, rainfall24Points, rainfall72Points,
      waterLevelPoints, humidityPoints, truthy]
  · norm_num [heuristicSeverity]
  · norm_num [mlSeverity, floodThresholds]

/-- C1, amended.  The severity level computed by
`predict_flood_probability` (the `FLOOD_THRESHOLDS` loop) is exactly
the pure step function with thresholds 30/50/70/85/95 mapping to levels
1..5, picking the highest threshold met, with everything below 30 at
level 0 — in particular probability 30 gives level 1 and probability
94.9 gives level 4, not 5.  The heuristic fallback branch of the view
uses a different mapping (30/50/60/75 → 1..4) and never exceeds
level 4. -/
theorem C1_theorem : ∀ p : ℚ,
    (p < 30 → mlSeverity p = 0) ∧
    (30 ≤ p → p < 50 → mlSeverity p = 1) ∧
    (50 ≤ p → p < 70 → mlSeverity p = 2) ∧
    (70 ≤ p → p < 85 → mlSeverity p = 3) ∧
    (85 ≤ p → p < 95 → mlSeverity p = 4) ∧
    (95 ≤ p → mlSeverity p = 5) ∧
    heuristicSeverity p ≤ 4 := by
  intro p
  simp only [mlSeverity, floodThresholds, List.foldl, heuristicSeverity]
  refine ⟨?_, ?_, ?_, ?_, ?_, ?_, ?_⟩ <;> intros <;> split_ifs <;>
    first | rfl | (exfalso; linarith) | norm_num

/-- C1, witness for the amended theorem: probability 94.9 maps to
severity 4 and probability 30 maps to severity 1 under the
`FLOOD_THRESHOLDS` loop. -/
theorem C1_theorem_witness :
    mlSeverity (949/10) = 4 ∧ mlSeverity 30 = 1 :=
  ⟨(C1_theorem (949/10)).2.2.2.2.1 (by norm_num) (by norm_num),
   (C1_theorem 30).2.1 (by norm_num) (by norm_num)⟩

/-- C4, counterexample.  The spec example rainfall_24h = 60,
rainfall_72h = 120, water_level = 1.6, humidity = 95 does produce
probability 100 on the heuristic path, but the severity level the
fallback branch then assigns is 4, not the claimed 5: the severity
chain of the fallback tops out at `probability >= 75 → 4`. -/
theorem C4_counterexample :
    heuristicSeverity
      (heuristicProbability (some 60) (some 120) (some (8/5)) (some 95)) = 4 ∧
    (4 : ℕ) ≠ 5 := by
  constructor
  · have h : heuristicProbability (some 60) (some 120) (some (8/5)) (some 95)
        = 100 := by
      norm_num [heuristicProbability, rainfall24Points, rainfall72Points,
        waterLevelPoints, humidityPoints, truthy]
    rw [h]; norm_num [heuristicSeverity]
  · norm_num

/-- C4, amended.  The inputs rainfall_24h = 60, rainfall_72h = 120,
water_level = 1.6, humidity = 95 produce probability
min(30+25+30+15, 100) = 100 on the heuristic path, and the heuristic
path assigns that probability severity level 4 (its maximum), not 5. -/
theorem C4_theorem :
    heuristicProbability (some 60) (some 120) (some (8/5)) (some 95) = 100 ∧
    rainfall24Points (some 60) + rainfall72Points (some 120)
      + waterLevelPoints (some (8/5)) + humidityPoints (some 95)
      = 30 + 25 + 30 + 15 ∧
    heuristicSeverity 100 = 4 := by
  refine ⟨?_, ?_, ?_⟩ <;>
    norm_num [heuristicProbability, heuristicSeverity, rainfall24Points,
      rainfall72Points, waterLevelPoints, humidityPoints, truthy]

/-- C8: the inputs rainfall_24h = 60 mm, rainfall_72h = 0,
water_level = 0, humidity = 0 produce probability 30 — only the more
than 50 mm rainfall tier fires, contributing its 30 points, while the
other three signals contribute 0 — and severity level 1. -/
theorem C8_theorem :
    heuristicProbability (some 60) (some 0) (some 0) (some 0) = 30 ∧
    rainfall24Points (some 60) = 30 ∧
    rainfall72Points (some 0) = 0 ∧
    waterLevelPoints (some 0) = 0 ∧
    humidityPoints (some 0) = 0 ∧
    heuristicSeverity 30 = 1 := by
  refine ⟨?_, ?_, ?_, ?_, ?_, ?_⟩ <;>
    norm_num [heuristicProbability, heuristicSeverity, rainfall24Points,
      rainfall72Points, waterLevelPoints, humidityPoints, truthy]

/-- C5: the heuristic probability is monotonically non-decreasing in
each of the four signals (24h rainfall, 72h rainfall, water level,
humidity) separately, for non-negative inputs, holding the other three
fixed. -/
theorem C5_theorem : ∀ a b r24 r72 wl hum : ℚ,
    0 ≤ a → 0 ≤ r24 → 0 ≤ r72 → 0 ≤ wl → 0 ≤ hum → a ≤ b →
    heuristicProbability (some a) (some r72) (some wl) (some hum)
      ≤ heuristicProbability (some b) (some r72) (some wl) (some hum) ∧
    heuristicProbability (some r24) (some a) (some wl) (some hum)
      ≤ heuristicProbability (some r24) (some b) (some wl) (some hum) ∧
    heuristicProbability (some r24) (some r72) (some a) (some hum)
      ≤ heuristicProbability (some r24) (some r72) (some b) (some hum) ∧
    heuristicProbability (some r24) (some r72) (some wl) (some a)
      ≤ heuristicProbability (some r24) (some r72) (some wl) (some b) := by
  intro a b r24 r72 wl hum _ _ _ _ _ hab
  unfold heuristicProbability
  refine ⟨?_, ?_, ?_, ?_⟩ <;> refine min_le_min ?_ le_rfl
  · have := rainfall24Points_mono hab; linarith
  · have := rainfall72Points_mono hab; linarith
  · have := waterLevelPoints_mono hab; linarith
  · have := humidityPoints_mono hab; linarith

/-- C5, witness: increasing the 24h rainfall from 20 to 60 (others held
at rainfall_72h = 30, water level = 1, humidity = 75) does not decrease
the probability, and likewise for the other three signals. -/
theorem C5_theorem_witness :
    heuristicProbability (some 20) (some 30) (some 1) (some 75)
      ≤ heuristicProbability (some 60) (some 30) (some 1) (some 75) ∧
    heuristicProbability (some 20) (some 20) (some 1) (some 75)
      ≤ heuristicProbability (some 20) (some 60) (some 1) (some 75) ∧
    heuristicProbability (some 20) (some 30) (some 20) (some 75)
      ≤ heuristicProbability (some 20) (some 30) (some 60) (some 75) ∧
    heuristicProbability (some 20) (some 30) (some 1) (some 20)
      ≤ heuristicProbability (some 20) (some 30) (some 1) (some 60) :=
  C5_theorem 20 60 20 30 1 75 (by norm_num) (by norm_num) (by norm_num)
    (by norm_num) (by norm_num) (by norm_num)

lemma statisticalFallbackProbability_eq (r w : ℚ) :
    statisticalFallbackProbability r w =
      pyInt (min 100 (r / 50 * 100) * (3/5) + min 100 (w / (3/2) * 100) * (2/5)) := by
  simp only [statisticalFallbackProbability]
  norm_num

lemma statisticalFallbackProbability_bounds {r w : ℚ} (hr : 0 ≤ r)
    (hw : 0 ≤ w) : 0 ≤ statisticalFallbackProbability r w ∧
    statisticalFallbackProbability r w ≤ 100 := by
  rw [statisticalFallbackProbability_eq]
  set q : ℚ := min 100 (r / 50 * 100) * (3/5) + min 100 (w / (3/2) * 100) * (2/5)
    with hq
  have hq0 : 0 ≤ q := by
    have h1 : 0 ≤ min 100 (r / 50 * 100) := le_min (by norm_num) (by positivity)
    have h2 : 0 ≤ min 100 (w / (3/2) * 100) := le_min (by norm_num) (by positivity)
    rw [hq]; positivity
  have hq100 : q ≤ 100 := by
    have h1 : min 100 (r / 50 * 100) ≤ 100 := min_le_left _ _
    have h2 : min 100 (w / (3/2) * 100) ≤ 100 := min_le_left _ _
    have h1' : 0 ≤ min 100 (r / 50 * 100) := le_min (by norm_num) (by positivity)
    have h2' : 0 ≤ min 100 (w / (3/2) * 100) := le_min (by norm_num) (by positivity)
    rw [hq]; nlinarith
  unfold pyInt
  rw [if_pos hq0]
  constructor
  · exact_mod_cast Int.floor_nonneg.2 hq0
  · have : (⌊q⌋ : ℚ) ≤ 100 := le_trans (Int.floor_le q) hq100
    exact_mod_cast this

/-- C6: for all non-negative rainfall and water-level inputs (and any
humidity), the probability lies in [0, 100], both on the heuristic
path of the view and on the missing-model statistical fallback of
`predict_flood_probability`. -/
theorem C6_theorem : ∀ r24 r72 wl hum : ℚ, 0 ≤ r24 → 0 ≤ r72 → 0 ≤ wl →
    (0 ≤ heuristicProbability (some r24) (some r72) (some wl) (some hum) ∧
      heuristicProbability (some r24) (some r72) (some wl) (some hum) ≤ 100) ∧
    (0 ≤ statisticalFallbackProbability r24 wl ∧
      statisticalFallbackProbability r24 wl ≤ 100) := by
  intro r24 r72 wl hum hr24 _ hwl
  exact ⟨⟨heuristicProbability_nonneg _ _ _ _, heuristicProbability_le_100 _ _ _ _⟩,
    statisticalFallbackProbability_bounds hr24 hwl⟩

/-- C6, witness: the bounds instantiated at rainfall_24h = 60,
rainfall_72h = 120, water level = 1.6, humidity = 95. -/
theorem C6_theorem_witness :
    (0 ≤ heuristicProbability (some 60) (some 120) (some (8/5)) (some 95) ∧
      heuristicProbability (some 60) (some 120) (some (8/5)) (some 95) ≤ 100) ∧
    (0 ≤ statisticalFallbackProbability 60 (8/5) ∧
      statisticalFallbackProbability 60 (8/5) ≤ 100) :=
  C6_theorem 60 120 (8/5) 95 (by norm_num) (by norm_num) (by norm_num)

/-- C9: a missing sensor aggregate (modelled as `none`) is treated as
absent rather than raising — each point function maps it to 0 points,
the probability is still defined, and it is never higher than the
probability computed with that signal present at any non-negative
value. -/
theorem C9_theorem : ∀ (r24 r72 wl hum : Option ℚ) (v : ℚ), 0 ≤ v →
    rainfall24Points none = 0 ∧ rainfall72Points none = 0 ∧
    waterLevelPoints none = 0 ∧ humidityPoints none = 0 ∧
    heuristicProbability none r72 wl hum
      ≤ heuristicProbability (some v) r72 wl hum ∧
    heuristicProbability r24 none wl hum
      ≤ heuristicProbability r24 (some v) wl hum ∧
    heuristicProbability r24 r72 none hum
      ≤ heuristicProbability r24 r72 (some v) hum ∧
    heuristicProbability r24 r72 wl none
      ≤ heuristicProbability r24 r72 wl (some v) := by
  intro r24 r72 wl hum v _
  have h24 : rainfall24Points none = 0 := rfl
  have h72 : rainfall72Points none = 0 := rfl
  have hwl : waterLevelPoints none = 0 := rfl
  have hhum : humidityPoints none = 0 := rfl
  refine ⟨h24, h72, hwl, hhum, ?_, ?_, ?_, ?_⟩ <;>
    unfold heuristicProbability <;> refine min_le_min ?_ le_rfl
  · have := (rainfall24Points_range (some v)).1; rw [h24]; linarith
  · have := (rainfall72Points_range (some v)).1; rw [h72]; linarith
  · have := (waterLevelPoints_range (some v)).1; rw [hwl]; linarith
  · have := (humidityPoints_range (some v)).1; rw [hhum]; linarith

/-- C9, witness: dropping the 24h-rainfall aggregate (and each other
signal in turn) at the concrete inputs rainfall = 60, water level = 1,
humidity = 75 never raises the probability, and missing aggregates
score 0 points. -/
theorem C9_theorem_witness :
    rainfall24Points none = 0 ∧ rainfall72Points none = 0 ∧
    waterLevelPoints none = 0 ∧ humidityPoints none = 0 ∧
    heuristicProbability none (some 60) (some 1) (some 75)
      ≤ heuristicProbability (some 60) (some 60) (some 1) (some 75) ∧
    heuristicProbability (some 60) none (some 1) (some 75)
      ≤ heuristicProbability (some 60) (some 60) (some 1) (some 75) ∧
    heuristicProbability (some 60) (some 60) none (some 75)
      ≤ heuristicProbability (some 60) (some 60) (some 60) (some 75) ∧
    heuristicProbability (some 60) (some 60) (some 1) none
      ≤ heuristicProbability (some 60) (some 60) (some 1) (some 60) := by
  have h := C9_theorem (some 60) (some 60) (some 1) (some 75) 60 (by norm_num)
  refine ⟨h.1, h.2.1, h.2.2.1, h.2.2.2.1, h.2.2.2.2.1, h.2.2.2.2.2.1, ?_, ?_⟩
  · exact h.2.2.2.2.2.2.1
  · exact (C9_theorem (some 60) (some 60) (some 1) (some 75) 60
      (by norm_num)).2.2.2.2.2.2.2

/-- C10: on the heuristic path the hours-to-flood estimate is guarded
by Python truthiness of both the current water level and the 24h
rainfall average, so even when probability is at least 60, a current
water level of exactly 0, or an absent or zero 24h rainfall average,
yields a null estimate — although the stated formula would still be
defined there (level_difference = max(0, 1.8 - 0) = 1.8). -/
theorem C10_theorem : ∀ (p : ℚ) (wl avg : Option ℚ), 60 ≤ p →
    heuristicHoursToFlood p (some 0) avg = none ∧
    heuristicHoursToFlood p wl none = none ∧
    heuristicHoursToFlood p wl (some 0) = none := by
  intro p wl avg hp
  refine ⟨?_, ?_, ?_⟩ <;> simp [heuristicHoursToFlood, truthy]

/-- C10, witness: at probability 70 (which is at least 60), a zero
water level, an absent rainfall average, and a zero rainfall average
each give a null hours-to-flood. -/
theorem C10_theorem_witness :
    heuristicHoursToFlood 70 (some 0) (some 24) = none ∧
    heuristicHoursToFlood 70 (some (8/5)) none = none ∧
    heuristicHoursToFlood 70 (some (8/5)) (some 0) = none :=
  C10_theorem 70 (some (8/5)) (some 24) (by norm_num)

lemma mlSeverity_le_five (p : ℚ) : mlSeverity p ≤ 5 := by
  simp only [mlSeverity, floodThresholds, List.foldl]
  split_ifs <;> norm_num

/-- C3, counterexample.  On the model path of
`predict_flood_probability`, when a regression model is present,
hours_to_flood is set whenever the classifier probability exceeds 50
and is clamped only below at 0: with probability 55 (which is below 60)
and regression output 100, the result carries hours_to_flood = 100,
which is neither null nor within [1, 48]. -/
theorem C3_counterexample :
    mlHoursToFlood 55 (some 100) = some 100 ∧
    (55 : ℚ) < 60 ∧ ¬((100 : ℚ) ≤ 48) := by
  refine ⟨?_, by norm_num, by norm_num⟩
  norm_num [mlHoursToFlood]

/-- C3, amended.  On the heuristic path, hours_to_flood is null
whenever probability < 60, null whenever the rise rate is
non-positive (a non-positive 24h rainfall average), always within
[1, 48] when defined, and when probability ≥ 60 with a non-zero water
level and a positive rainfall average it equals
max(0, 1.8 - level) / (avg/24 · 0.02) clamped to [1, 48].  On the model
path with a regression model present, hours_to_flood can instead be set
for any probability above 50 and is clamped only below at 0. -/
theorem C3_theorem : ∀ (p : ℚ) (wl avg : Option ℚ),
    (p < 60 → heuristicHoursToFlood p wl avg = none) ∧
    (∀ a : ℚ, avg = some a → a ≤ 0 → heuristicHoursToFlood p wl avg = none) ∧
    (∀ h : ℚ, heuristicHoursToFlood p wl avg = some h → 1 ≤ h ∧ h ≤ 48) ∧
    (∀ c a : ℚ, 60 ≤ p → wl = some c → avg = some a → c ≠ 0 → 0 < a →
      heuristicHoursToFlood p wl avg =
        some (max 1 (min 48 (max 0 (9/5 - c) / (a / 24 * (1/50)))))) := by
  intro p wl avg
  refine ⟨?_, ?_, ?_, ?_⟩
  · intro hp
    simp only [heuristicHoursToFlood]
    rw [if_neg (by linarith)]
  · rintro a rfl ha
    rcases ha.lt_or_eq with ha0 | ha0
    · have hne : ¬(a / 24 > 0) := by
        intro hcon
        have : (0:ℚ) < a := by
          by_contra hle
          push_neg at hle
          have : a / 24 ≤ 0 := by
            apply div_nonpos_of_nonpos_of_nonneg hle (by norm_num)
          linarith
        linarith
      simp [heuristicHoursToFlood, hne]
    · subst ha0
      simp [heuristicHoursToFlood, truthy]
  · intro h hsome
    simp only [heuristicHoursToFlood] at hsome
    split_ifs at hsome
    injection hsome with hEq
    subst hEq
    refine ⟨le_max_left _ _, max_le (by norm_num) (min_le_left _ _)⟩
  · rintro c a hp rfl rfl hc ha
    have h1 : truthy (some c) = true := by simp [truthy, hc]
    have h2 : truthy (some a) = true := by simp [truthy]; exact ne_of_gt ha
    have h3 : a / 24 > 0 := div_pos ha (by norm_num)
    have h4 : a / 24 * (1/50) > 0 := by positivity
    simp only [heuristicHoursToFlood, Option.getD_some]
    rw [if_pos hp, if_pos ⟨h1, h2⟩, if_pos h3, if_pos h4]

/-- C3, witness for the amended theorem: probability 40 gives a null
estimate; probability 70 with water level 1.6 and rainfall average 24
gives the clamped formula value, which evaluates to 10 hours. -/
theorem C3_theorem_witness :
    heuristicHoursToFlood 40 (some (8/5)) (some 24) = none ∧
    heuristicHoursToFlood 70 (some (8/5)) (some 24) =
      some (max 1 (min 48 (max 0 (9/5 - 8/5) / (24 / 24 * (1/50))))) ∧
    heuristicHoursToFlood 70 (some (8/5)) (some 24) = some 10 := by
  have h1 := (C3_theorem 40 (some (8/5)) (some 24)).1 (by norm_num)
  have h2 := (C3_theorem 70 (some (8/5)) (some 24)).2.2.2 (8/5) 24
    (by norm_num) rfl rfl (by norm_num) (by norm_num)
  refine ⟨h1, h2, ?_⟩
  rw [h2]
  norm_num

/-- C2, counterexample.  A missing model artifact does not route
`predict_flood_probability` to the additive heuristic: it uses a
separate statistical formula (60 % rainfall factor + 40 % water-level
factor).  On the identical inputs rainfall_24h = 0, rainfall_72h = 120,
water_level = 1.6, humidity = 95, the missing-artifact fallback yields
probability 40 (severity 1) while the heuristic scorer yields
probability 70 (severity 3) — a different result category. -/
theorem C2_counterexample :
    statisticalFallbackProbability 0 (8/5) = 40 ∧
    mlSeverity 40 = 1 ∧
    heuristicProbability (some 0) (some 120) (some (8/5)) (some 95) = 70 ∧
    heuristicSeverity 70 = 3 := by
  refine ⟨?_, ?_, ?_, ?_⟩
  · norm_num [statisticalFallbackProbability, pyInt]
  · norm_num [mlSeverity, floodThresholds]
  · norm_num [heuristicProbability, rainfall24Points, rainfall72Points,
      waterLevelPoints, humidityPoints, truthy]
  · norm_num [heuristicSeverity]

/-- C2, amended.  When the model artifact is missing,
`predict_flood_probability` does not raise: it falls back
deterministically to the statistical formula — a pure function of the
24h rainfall and the water level, truncated to an integer — whose
probability lies in [0, 100] for non-negative inputs and whose severity
level is well defined (at most 5).  This fallback generally differs in
probability and severity from the heuristic scorer of the view, which
runs only when `predict_flood_probability` raises an exception. -/
theorem C2_theorem : ∀ r w : ℚ, 0 ≤ r → 0 ≤ w →
    statisticalFallbackProbability r w =
      pyInt (min 100 (r / 50 * 100) * (3/5) + min 100 (w / (3/2) * 100) * (2/5)) ∧
    0 ≤ statisticalFallbackProbability r w ∧
    statisticalFallbackProbability r w ≤ 100 ∧
    mlSeverity ((statisticalFallbackProbability r w : ℤ) : ℚ) ≤ 5 := by
  intro r w hr hw
  obtain ⟨hlo, hhi⟩ := statisticalFallbackProbability_bounds hr hw
  exact ⟨statisticalFallbackProbability_eq r w, hlo, hhi, mlSeverity_le_five _⟩

/-- C2, witness for the amended theorem: the statistical fallback at
rainfall_24h = 60 and water level = 1.6 equals its closed form, stays
within [0, 100] and has a well-defined severity. -/
theorem C2_theorem_witness :
    statisticalFallbackProbability 60 (8/5) =
      pyInt (min 100 ((60:ℚ) / 50 * 100) * (3/5) + min 100 ((8/5 : ℚ) / (3/2) * 100) * (2/5)) ∧
    0 ≤ statisticalFallbackProbability 60 (8/5) ∧
    statisticalFallbackProbability 60 (8/5) ≤ 100 ∧
    mlSeverity ((statisticalFallbackProbability 60 (8/5) : ℤ) : ℚ) ≤ 5 :=
  C2_theorem 60 (8/5) (by norm_num) (by norm_num)

/-- C7, counterexample.  The tier comparisons of the heuristic scorer
are strict (`>`), not lower-bound-inclusive (`>=`): a 24h rainfall
total of exactly 50 mm earns 20 points (the next lower tier), not the
30 points of the more-than-50 tier, and the boundary values of the
other three signals likewise fall to the next lower tier. -/
theorem C7_counterexample :
    rainfall24Points (some 50) = 20 ∧ rainfall24Points (some 50) ≠ 30 ∧
    rainfall72Points (some 100) = 15 ∧
    waterLevelPoints (some (3/2)) = 20 ∧
    humidityPoints (some 90) = 10 := by
  refine ⟨?_, ?_, ?_, ?_, ?_⟩ <;>
    norm_num [rainfall24Points, rainfall72Points, waterLevelPoints,
      humidityPoints, truthy]

/-- C7, amended.  Each of the four signals is bucketed with strict
(`>`, lower-bound-exclusive) comparisons, and the point value is the
best matching tier: the maximum points among the tiers whose bound is
strictly exceeded, so the highest-point matching tier wins and at most
one tier per signal contributes (no double counting).  A value exactly
equal to a tier bound earns the next lower tier instead. -/
theorem C7_theorem : ∀ x : ℚ,
    rainfall24Points (some x) = bestTier [(50,30),(25,20),(10,10)] x ∧
    rainfall72Points (some x) = bestTier [(100,25),(50,15),(25,5)] x ∧
    waterLevelPoints (some x) = bestTier [(3/2,30),(1,20),(1/2,10)] x ∧
    humidityPoints (some x) = bestTier [(90,15),(80,10),(70,5)] x := by
  intro x
  refine ⟨?_, ?_, ?_, ?_⟩
  · rw [rainfall24Points_some]
    simp only [bestTier]
    split_ifs <;> first | (exfalso; linarith) | norm_num [max_def]
  · rw [rainfall72Points_some]
    simp only [bestTier]
    split_ifs <;> first | (exfalso; linarith) | norm_num [max_def]
  · rw [waterLevelPoints_some]
    simp only [bestTier]
    split_ifs <;> first | (exfalso; linarith) | norm_num [max_def]
  · rw [humidityPoints_some]
    simp only [bestTier]
    split_ifs <;> first | (exfalso; linarith) | norm_num [max_def]

end Flood
